import Mathlib

/-!
Shallow embedding of the persisted data model defined in src/app/models.py.

The source file is a SQLModel schema: six string-valued enumerations, a set
of table entities whose fields carry declared constraints (max_length on
strings, ge/le bounds on integers, gt bounds, uniqueness, foreign keys,
decimal precision), and a handful of non-persistent validation shapes.

Modelling choices:
  - Python str is Lean String; Python int is Lean Int; Optional[T] is
    Option T; datetime is an opaque integer timestamp (abbrev DateTime);
    Decimal values are Lean rationals (Rat);
  - free-form JSON dictionaries (Dict[str, Any]) are opaque blobs, modelled
    as association lists of strings (abbrev JsonDict);
  - each str-Enum becomes an inductive type with a value function (the
    member string value) and an ofValue function (lookup of a member by its
    string value, as Python EnumName(s) does);
  - each entity class becomes a structure holding exactly its column fields
    (ORM Relationship attributes are access conveniences, not columns, and
    are omitted);
  - the declared per-row field constraints of an entity become a decidable
    validity predicate validEntity;
  - table-level constraints (unique columns, foreign keys) become the
    predicate validDBState over a DBState record of table contents;
  - declared column defaults become a newEntity constructor that fills
    every non-supplied column with its declared default.
-/

/-- Embeds class StudentGrade(str, Enum) of src/app/models.py. -/
inductive StudentGrade where
  | GRADE_4
  | GRADE_5
  | GRADE_6
  deriving DecidableEq

/-- Embeds class QuestionDifficulty(str, Enum) of src/app/models.py. -/
inductive QuestionDifficulty where
  | EASY
  | MEDIUM
  | HARD
  deriving DecidableEq

/-- Embeds class QuestionType(str, Enum) of src/app/models.py. -/
inductive QuestionType where
  | MULTIPLE_CHOICE
  | TRUE_FALSE
  | SHORT_ANSWER
  deriving DecidableEq

/-- Embeds class BadgeType(str, Enum) of src/app/models.py. -/
inductive BadgeType where
  | LEVEL_COMPLETION
  | STREAK
  | PERFECT_SCORE
  | EXPLORER
  | SCHOLAR
  deriving DecidableEq

/-- Embeds class MediaType(str, Enum) of src/app/models.py. -/
inductive MediaType where
  | IMAGE
  | AUDIO
  | VIDEO
  | DOCUMENT
  | MODEL_3D
  deriving DecidableEq

/-- Embeds class ARTriggerType(str, Enum) of src/app/models.py. -/
inductive ARTriggerType where
  | BANKNOTE
  | STAMP
  | TEXTBOOK_IMAGE
  | QR_CODE
  deriving DecidableEq

/-- String value of each StudentGrade member, as declared in the source. -/
def StudentGrade.value : StudentGrade → String
  | .GRADE_4 => "4"
  | .GRADE_5 => "5"
  | .GRADE_6 => "6"

/-- Parsing a string into a StudentGrade member by value, as Python
StudentGrade(s) does: accepts exactly the member values. -/
def StudentGrade.ofValue (s : String) : Option StudentGrade :=
  if s = "4" then some .GRADE_4
  else if s = "5" then some .GRADE_5
  else if s = "6" then some .GRADE_6
  else none

/-- String value of each QuestionDifficulty member. -/
def QuestionDifficulty.value : QuestionDifficulty → String
  | .EASY => "easy"
  | .MEDIUM => "medium"
  | .HARD => "hard"

/-- Parsing a string into a QuestionDifficulty member by value. -/
def QuestionDifficulty.ofValue (s : String) : Option QuestionDifficulty :=
  if s = "easy" then some .EASY
  else if s = "medium" then some .MEDIUM
  else if s = "hard" then some .HARD
  else none

/-- String value of each QuestionType member. -/
def QuestionType.value : QuestionType → String
  | .MULTIPLE_CHOICE => "multiple_choice"
  | .TRUE_FALSE => "true_false"
  | .SHORT_ANSWER => "short_answer"

/-- Parsing a string into a QuestionType member by value. -/
def QuestionType.ofValue (s : String) : Option QuestionType :=
  if s = "multiple_choice" then some .MULTIPLE_CHOICE
  else if s = "true_false" then some .TRUE_FALSE
  else if s = "short_answer" then some .SHORT_ANSWER
  else none

/-- String value of each BadgeType member. -/
def BadgeType.value : BadgeType → String
  | .LEVEL_COMPLETION => "level_completion"
  | .STREAK => "streak"
  | .PERFECT_SCORE => "perfect_score"
  | .EXPLORER => "explorer"
  | .SCHOLAR => "scholar"

/-- Parsing a string into a BadgeType member by value. -/
def BadgeType.ofValue (s : String) : Option BadgeType :=
  if s = "level_completion" then some .LEVEL_COMPLETION
  else if s = "streak" then some .STREAK
  else if s = "perfect_score" then some .PERFECT_SCORE
  else if s = "explorer" then some .EXPLORER
  else if s = "scholar" then some .SCHOLAR
  else none

/-- String value of each MediaType member. -/
def MediaType.value : MediaType → String
  | IMAGE => "image"
  | AUDIO => "audio"
  | VIDEO => "video"
  | DOCUMENT => "document"
  | MODEL_3D => "model_3d"

/-- Parsing a string into a MediaType member by value. -/
def MediaType.ofValue (s : String) : Option MediaType :=
  if s = "image" then some IMAGE
  else if s = "audio" then some AUDIO
  else if s = "video" then some VIDEO
  else if s = "document" then some DOCUMENT
  else if s = "model_3d" then some MODEL_3D
  else none

/-- String value of each ARTriggerType member. -/
def ARTriggerType.value : ARTriggerType → String
  | .BANKNOTE => "banknote"
  | .STAMP => "stamp"
  | .TEXTBOOK_IMAGE => "textbook_image"
  | .QR_CODE => "qr_code"

/-- Parsing a string into an ARTriggerType member by value. -/
def ARTriggerType.ofValue (s : String) : Option ARTriggerType :=
  if s = "banknote" then some .BANKNOTE
  else if s = "stamp" then some .STAMP
  else if s = "textbook_image" then some .TEXTBOOK_IMAGE
  else if s = "qr_code" then some .QR_CODE
  else none

/-- Exhaustive member list of StudentGrade. -/
def StudentGrade.all : List StudentGrade := [.GRADE_4, .GRADE_5, .GRADE_6]

/-- Exhaustive member list of QuestionDifficulty. -/
def QuestionDifficulty.all : List QuestionDifficulty := [.EASY, .MEDIUM, .HARD]

/-- Exhaustive member list of QuestionType. -/
def QuestionType.all : List QuestionType :=
  [.MULTIPLE_CHOICE, .TRUE_FALSE, .SHORT_ANSWER]

/-- Exhaustive member list of BadgeType. -/
def BadgeType.all : List BadgeType :=
  [.LEVEL_COMPLETION, .STREAK, .PERFECT_SCORE, .EXPLORER, .SCHOLAR]

/-- Exhaustive member list of MediaType. -/
def MediaType.all : List MediaType :=
  [IMAGE, AUDIO, VIDEO, DOCUMENT, MODEL_3D]

/-- Exhaustive member list of ARTriggerType. -/
def ARTriggerType.all : List ARTriggerType :=
  [.BANKNOTE, .STAMP, .TEXTBOOK_IMAGE, .QR_CODE]

theorem studentGrade_ofValue_isSome (s : String) :
    (StudentGrade.ofValue s).isSome = true ↔ s = "4" ∨ s = "5" ∨ s = "6" := by
  simp only [StudentGrade.ofValue]
  split_ifs <;> simp_all

theorem questionDifficulty_ofValue_isSome (s : String) :
    (QuestionDifficulty.ofValue s).isSome = true ↔
      s = "easy" ∨ s = "medium" ∨ s = "hard" := by
  simp only [QuestionDifficulty.ofValue]
  split_ifs <;> simp_all

theorem questionType_ofValue_isSome (s : String) :
    (QuestionType.ofValue s).isSome = true ↔
      s = "multiple_choice" ∨ s = "true_false" ∨ s = "short_answer" := by
  simp only [QuestionType.ofValue]
  split_ifs <;> simp_all

theorem badgeType_ofValue_isSome (s : String) :
    (BadgeType.ofValue s).isSome = true ↔
      s = "level_completion" ∨ s = "streak" ∨ s = "perfect_score" ∨
        s = "explorer" ∨ s = "scholar" := by
  simp only [BadgeType.ofValue]
  split_ifs <;> simp_all

theorem mediaType_ofValue_isSome (s : String) :
    (MediaType.ofValue s).isSome = true ↔
      s = "image" ∨ s = "audio" ∨ s = "video" ∨ s = "document" ∨
        s = "model_3d" := by
  simp only [MediaType.ofValue]
  split_ifs <;> simp_all

theorem arTriggerType_ofValue_isSome (s : String) :
    (ARTriggerType.ofValue s).isSome = true ↔
      s = "banknote" ∨ s = "stamp" ∨ s = "textbook_image" ∨ s = "qr_code" := by
  simp only [ARTriggerType.ofValue]
  split_ifs <;> simp_all

theorem studentGrade_ofValue_value (g : StudentGrade) :
    StudentGrade.ofValue g.value = some g := by
  cases g <;> decide

theorem questionDifficulty_ofValue_value (d : QuestionDifficulty) :
    QuestionDifficulty.ofValue d.value = some d := by
  cases d <;> decide

theorem questionType_ofValue_value (q : QuestionType) :
    QuestionType.ofValue q.value = some q := by
  cases q <;> decide

theorem badgeType_ofValue_value (b : BadgeType) :
    BadgeType.ofValue b.value = some b := by
  cases b <;> decide

theorem mediaType_ofValue_value (m : MediaType) :
    MediaType.ofValue m.value = some m := by
  cases m <;> decide

theorem arTriggerType_ofValue_value (t : ARTriggerType) :
    ARTriggerType.ofValue t.value = some t := by
  cases t <;> decide

/-- Python datetime values are modelled as opaque integer timestamps. -/
abbrev DateTime := Int

/-- Free-form JSON dictionaries (Dict[str, Any]) are opaque structured
blobs; they are modelled as association lists of strings. -/
abbrev JsonDict := List (String × String)

/-- Embeds class User(SQLModel, table=True), table users: column fields
only (ORM Relationship attributes are not columns). -/
structure User where
  id : Option Int
  username : String
  email : String
  full_name : String
  is_teacher : Bool
  created_at : DateTime
  updated_at : DateTime
  deriving DecidableEq

/-- Embeds class StudentProfile(SQLModel, table=True), table
student_profiles. -/
structure StudentProfile where
  id : Option Int
  user_id : Int
  grade : StudentGrade
  school_name : String
  total_points : Int
  current_level : Int
  streak_days : Int
  last_activity : Option DateTime
  deriving DecidableEq

/-- Embeds class TeacherProfile(SQLModel, table=True), table
teacher_profiles. -/
structure TeacherProfile where
  id : Option Int
  user_id : Int
  school_name : String
  certification_number : Option String
  specialization : Option String
  deriving DecidableEq

/-- Embeds class LessonPlan(SQLModel, table=True), table lesson_plans. -/
structure LessonPlan where
  id : Option Int
  title : String
  description : String
  grade_level : StudentGrade
  subject : String
  duration_minutes : Int
  learning_objectives : List String
  curriculum_alignment : JsonDict
  gamification_elements : JsonDict
  created_by_id : Int
  created_at : DateTime
  updated_at : DateTime
  is_validated : Bool
  deriving DecidableEq

/-- Embeds class TeachingMaterial(SQLModel, table=True), table
teaching_materials. -/
structure TeachingMaterial where
  id : Option Int
  lesson_plan_id : Int
  title : String
  material_type : MediaType
  file_path : String
  description : Option String
  display_order : Int
  is_validated : Bool
  created_at : DateTime
  deriving DecidableEq

/-- Embeds class ActivitySheet(SQLModel, table=True), table
activity_sheets. -/
structure ActivitySheet where
  id : Option Int
  lesson_plan_id : Int
  title : String
  instructions : String
  activity_type : String
  estimated_time_minutes : Int
  materials_needed : List String
  assessment_criteria : JsonDict
  file_path : Option String
  created_at : DateTime
  deriving DecidableEq

/-- Embeds class HistoricalPeriod(SQLModel, table=True), table
historical_periods. -/
structure HistoricalPeriod where
  id : Option Int
  name : String
  description : String
  start_year : Option Int
  end_year : Option Int
  display_order : Int
  background_image : Option String
  deriving DecidableEq

/-- Embeds class QuizLevel(SQLModel, table=True), table quiz_levels. -/
structure QuizLevel where
  id : Option Int
  historical_period_id : Int
  level_number : Int
  title : String
  description : String
  unlock_points_required : Int
  completion_points_reward : Int
  max_attempts : Option Int
  time_limit_minutes : Option Int
  deriving DecidableEq

/-- Embeds class QuizQuestion(SQLModel, table=True), table
quiz_questions. -/
structure QuizQuestion where
  id : Option Int
  quiz_level_id : Int
  question_text : String
  question_type : QuestionType
  difficulty : QuestionDifficulty
  points_value : Int
  explanation : String
  media_url : Option String
  correct_answer : String
  answer_options : Option (List String)
  display_order : Int
  created_at : DateTime
  deriving DecidableEq

/-- Embeds class QuizAttempt(SQLModel, table=True), table quiz_attempts. -/
structure QuizAttempt where
  id : Option Int
  student_id : Int
  quiz_level_id : Int
  attempt_number : Int
  started_at : DateTime
  completed_at : Option DateTime
  score : Option Int
  total_points_earned : Int
  is_completed : Bool
  is_passed : Bool
  deriving DecidableEq

/-- Embeds class StudentAnswer(SQLModel, table=True), table
student_answers. -/
structure StudentAnswer where
  id : Option Int
  quiz_attempt_id : Int
  question_id : Int
  student_answer : String
  is_correct : Bool
  points_earned : Int
  answered_at : DateTime
  time_taken_seconds : Option Int
  deriving DecidableEq

/-- Embeds class Badge(SQLModel, table=True), table badges. -/
structure Badge where
  id : Option Int
  name : String
  description : String
  badge_type : BadgeType
  icon_url : String
  criteria : JsonDict
  points_reward : Int
  is_active : Bool
  deriving DecidableEq

/-- Embeds class StudentBadge(SQLModel, table=True), table
student_badges. -/
structure StudentBadge where
  id : Option Int
  student_id : Int
  badge_id : Int
  earned_at : DateTime
  progress_data : Option JsonDict
  deriving DecidableEq

/-- Embeds class VocabularyTerm(SQLModel, table=True), table
vocabulary_terms. -/
structure VocabularyTerm where
  id : Option Int
  historical_period_id : Option Int
  term : String
  definition : String
  pronunciation : Option String
  audio_url : Option String
  etymology : Option String
  usage_example : Option String
  difficulty_level : QuestionDifficulty
  grade_level : StudentGrade
  created_at : DateTime
  deriving DecidableEq

/-- Embeds class VocabularyVisual(SQLModel, table=True), table
vocabulary_visuals. -/
structure VocabularyVisual where
  id : Option Int
  vocabulary_term_id : Int
  media_type : MediaType
  media_url : String
  caption : Option String
  alt_text : String
  display_order : Int
  deriving DecidableEq

/-- Embeds class TermConnection(SQLModel, table=True), table
term_connections: a directed edge between two vocabulary terms. -/
structure TermConnection where
  id : Option Int
  source_term_id : Int
  target_term_id : Int
  relationship_type : String
  description : Option String
  strength : Int
  deriving DecidableEq

/-- Embeds class HistoricalFigure(SQLModel, table=True), table
historical_figures. -/
structure HistoricalFigure where
  id : Option Int
  historical_period_id : Option Int
  name : String
  birth_year : Option Int
  death_year : Option Int
  birth_place : Option String
  occupation : Option String
  biography_summary : String
  major_contributions : List String
  famous_quotes : List String
  portrait_url : Option String
  is_featured : Bool
  reading_level : StudentGrade
  created_at : DateTime
  deriving DecidableEq

/-- Embeds class DiaryEntry(SQLModel, table=True), table diary_entries. -/
structure DiaryEntry where
  id : Option Int
  historical_figure_id : Int
  title : String
  entry_text : String
  entry_date : Option DateTime
  historical_context : String
  emotional_tone : Option String
  display_order : Int
  is_fictional : Bool
  sources : Option (List String)
  created_at : DateTime
  deriving DecidableEq

/-- Embeds class TimelineEvent(SQLModel, table=True), table
timeline_events. -/
structure TimelineEvent where
  id : Option Int
  historical_figure_id : Int
  title : String
  description : String
  event_date : Option DateTime
  event_year : Option Int
  importance_level : Int
  location : Option String
  display_order : Int
  deriving DecidableEq

/-- Embeds class FigureMultimedia(SQLModel, table=True), table
figure_multimedia. -/
structure FigureMultimedia where
  id : Option Int
  historical_figure_id : Int
  media_type : MediaType
  media_url : String
  title : String
  description : Option String
  source_attribution : Option String
  display_order : Int
  is_primary : Bool
  deriving DecidableEq

/-- Embeds class HeroDiaryProgress(SQLModel, table=True), table
hero_diary_progress; the Decimal completion_percentage is a rational. -/
structure HeroDiaryProgress where
  id : Option Int
  student_id : Int
  historical_figure_id : Int
  entries_read : Int
  total_entries : Int
  completion_percentage : ℚ
  last_accessed : DateTime
  favorite_entries : List Int
  notes : Option String
  deriving DecidableEq

/-- Embeds class ARTrigger(SQLModel, table=True), table ar_triggers. -/
structure ARTrigger where
  id : Option Int
  trigger_type : ARTriggerType
  trigger_name : String
  description : String
  recognition_data : JsonDict
  is_active : Bool
  created_at : DateTime
  deriving DecidableEq

/-- Embeds class ARModel(SQLModel, table=True), table ar_models; the
Decimal columns scale_factor and file_size_mb are rationals. -/
structure ARModel where
  id : Option Int
  historical_figure_id : Option Int
  model_name : String
  model_file_path : String
  texture_file_path : Option String
  animation_file_path : Option String
  scale_factor : ℚ
  animation_triggers : List String
  interaction_points : JsonDict
  file_size_mb : Option ℚ
  created_at : DateTime
  deriving DecidableEq

/-- Embeds class ARExperience(SQLModel, table=True), table
ar_experiences. -/
structure ARExperience where
  id : Option Int
  ar_trigger_id : Int
  ar_model_id : Int
  experience_name : String
  description : String
  interactive_elements : JsonDict
  storytelling_content : JsonDict
  audio_narration_url : Option String
  duration_seconds : Option Int
  grade_level : StudentGrade
  is_active : Bool
  deriving DecidableEq

/-- Embeds class ARSession(SQLModel, table=True), table ar_sessions;
completion_status is a plain string column (the set started, completed,
abandoned appears only in a source comment). -/
structure ARSession where
  id : Option Int
  student_id : Option Int
  ar_experience_id : Int
  session_start : DateTime
  session_end : Option DateTime
  duration_seconds : Option Int
  interactions_count : Int
  completion_status : String
  device_info : Option JsonDict
  deriving DecidableEq

/-- Embeds class UserCreate(SQLModel, table=False), a non-persistent
validation shape. -/
structure UserCreate where
  username : String
  email : String
  full_name : String
  is_teacher : Bool
  deriving DecidableEq

/-- Embeds class StudentCreate(SQLModel, table=False). -/
structure StudentCreate where
  grade : StudentGrade
  school_name : String
  deriving DecidableEq

/-- Embeds class TeacherCreate(SQLModel, table=False). -/
structure TeacherCreate where
  school_name : String
  certification_number : Option String
  specialization : Option String
  deriving DecidableEq

/-- Embeds class QuizAttemptCreate(SQLModel, table=False). -/
structure QuizAttemptCreate where
  quiz_level_id : Int
  deriving DecidableEq

/-- Embeds class StudentAnswerCreate(SQLModel, table=False). -/
structure StudentAnswerCreate where
  question_id : Int
  student_answer : String
  deriving DecidableEq

/-- Embeds class VocabularyTermCreate(SQLModel, table=False). -/
structure VocabularyTermCreate where
  historical_period_id : Option Int
  term : String
  definition : String
  pronunciation : Option String
  difficulty_level : QuestionDifficulty
  grade_level : StudentGrade
  deriving DecidableEq

/-- Embeds class HeroDiaryProgressUpdate(SQLModel, table=False). -/
structure HeroDiaryProgressUpdate where
  entries_read : Option Int
  notes : Option String
  favorite_entries : Option (List Int)
  deriving DecidableEq

/-- Embeds class ARSessionCreate(SQLModel, table=False). -/
structure ARSessionCreate where
  ar_experience_id : Int
  device_info : Option JsonDict
  deriving DecidableEq

/-- Boolean check that a string respects a max_length bound. -/
def strLenLe (s : String) (n : Nat) : Bool := decide (s.length ≤ n)

/-- Boolean check that an optional string respects a max_length bound
(an absent value trivially does). -/
def optStrLenLe (o : Option String) (n : Nat) : Bool :=
  o.elim true (fun s => strLenLe s n)

/-- A rational fits a Decimal(max_digits, decimal_places) column: scaled
by 10 to the decimal_places it is an integer of at most max_digits digits.
Stated on the reduced numerator and denominator: the denominator divides
the scale, and the scaled magnitude stays below 10 to the max_digits. -/
def decimalFits (maxDigits decPlaces : Nat) (v : ℚ) : Bool :=
  decide (10 ^ decPlaces % v.den = 0) &&
    decide (v.num.natAbs * 10 ^ decPlaces ≤ (10 ^ maxDigits - 1) * v.den)

/-- Storing a rational into a Decimal(max_digits, decimal_places) column:
the exact scaled integer when the value fits the precision, rejection
otherwise. -/
def storeDecimal (maxDigits decPlaces : Nat) (v : ℚ) : Option Int :=
  if decimalFits maxDigits decPlaces v then
    some (v.num * ((10 ^ decPlaces / v.den : Nat) : Int))
  else none

/-- Loading a stored scaled integer of a Decimal(_, decimal_places) column
back into a rational. -/
def loadDecimal (decPlaces : Nat) (n : Int) : ℚ := (n : ℚ) / (10 : ℚ) ^ decPlaces

/-- Boolean check that an optional rational fits a Decimal column. -/
def optDecimalFits (maxDigits decPlaces : Nat) (o : Option ℚ) : Bool :=
  o.elim true (fun v => decimalFits maxDigits decPlaces v)

/-- Declared field constraints of table users. -/
def validUser (u : User) : Bool :=
  strLenLe u.username 50 && strLenLe u.email 255 && strLenLe u.full_name 100

/-- Declared field constraints of table student_profiles. -/
def validStudentProfile (p : StudentProfile) : Bool :=
  strLenLe p.school_name 200

/-- Declared field constraints of table teacher_profiles. -/
def validTeacherProfile (p : TeacherProfile) : Bool :=
  strLenLe p.school_name 200 && optStrLenLe p.certification_number 50 &&
    optStrLenLe p.specialization 100

/-- Declared field constraints of table lesson_plans. -/
def validLessonPlan (p : LessonPlan) : Bool :=
  strLenLe p.title 200 && strLenLe p.description 1000 &&
    strLenLe p.subject 100 && decide (0 < p.duration_minutes)

/-- Declared field constraints of table teaching_materials. -/
def validTeachingMaterial (m : TeachingMaterial) : Bool :=
  strLenLe m.title 200 && strLenLe m.file_path 500 &&
    optStrLenLe m.description 500

/-- Declared field constraints of table activity_sheets. -/
def validActivitySheet (a : ActivitySheet) : Bool :=
  strLenLe a.title 200 && strLenLe a.instructions 2000 &&
    strLenLe a.activity_type 50 && decide (0 < a.estimated_time_minutes) &&
    optStrLenLe a.file_path 500

/-- Declared field constraints of table historical_periods. -/
def validHistoricalPeriod (p : HistoricalPeriod) : Bool :=
  strLenLe p.name 100 && strLenLe p.description 1000 &&
    optStrLenLe p.background_image 500

/-- Declared field constraints of table quiz_levels. -/
def validQuizLevel (q : QuizLevel) : Bool :=
  decide (0 < q.level_number) && strLenLe q.title 200 &&
    strLenLe q.description 500 && decide (0 < q.completion_points_reward)

/-- Declared field constraints of table quiz_questions. -/
def validQuizQuestion (q : QuizQuestion) : Bool :=
  strLenLe q.question_text 1000 && decide (0 < q.points_value) &&
    strLenLe q.explanation 1000 && optStrLenLe q.media_url 500 &&
    strLenLe q.correct_answer 500

/-- Declared field constraints of table quiz_attempts. -/
def validQuizAttempt (a : QuizAttempt) : Bool :=
  decide (0 < a.attempt_number)

/-- Declared field constraints of table student_answers. -/
def validStudentAnswer (a : StudentAnswer) : Bool :=
  strLenLe a.student_answer 1000

/-- Declared field constraints of table badges. -/
def validBadge (b : Badge) : Bool :=
  strLenLe b.name 100 && strLenLe b.description 500 && strLenLe b.icon_url 500

/-- Declared field constraints of table student_badges. -/
def validStudentBadge (_ : StudentBadge) : Bool := true

/-- Declared field constraints of table vocabulary_terms. -/
def validVocabularyTerm (v : VocabularyTerm) : Bool :=
  strLenLe v.term 100 && strLenLe v.definition 2000 &&
    optStrLenLe v.pronunciation 200 && optStrLenLe v.audio_url 500 &&
    optStrLenLe v.etymology 500 && optStrLenLe v.usage_example 1000

/-- Declared field constraints of table vocabulary_visuals. -/
def validVocabularyVisual (v : VocabularyVisual) : Bool :=
  strLenLe v.media_url 500 && optStrLenLe v.caption 500 &&
    strLenLe v.alt_text 300

/-- Declared field constraints of table term_connections: the
relationship_type length, the description length, and the strength bound
declared as Field(default=1, ge=1, le=5). -/
def validTermConnection (c : TermConnection) : Bool :=
  strLenLe c.relationship_type 50 && optStrLenLe c.description 500 &&
    decide (1 ≤ c.strength) && decide (c.strength ≤ 5)

/-- Declared field constraints of table historical_figures. -/
def validHistoricalFigure (f : HistoricalFigure) : Bool :=
  strLenLe f.name 100 && optStrLenLe f.birth_place 200 &&
    optStrLenLe f.occupation 100 && strLenLe f.biography_summary 2000 &&
    optStrLenLe f.portrait_url 500

/-- Declared field constraints of table diary_entries. -/
def validDiaryEntry (e : DiaryEntry) : Bool :=
  strLenLe e.title 200 && strLenLe e.entry_text 5000 &&
    strLenLe e.historical_context 1000 && optStrLenLe e.emotional_tone 50

/-- Declared field constraints of table timeline_events: title,
description and location lengths, and the importance_level bound declared
as Field(default=1, ge=1, le=5). -/
def validTimelineEvent (e : TimelineEvent) : Bool :=
  strLenLe e.title 200 && strLenLe e.description 1000 &&
    decide (1 ≤ e.importance_level) && decide (e.importance_level ≤ 5) &&
    optStrLenLe e.location 200

/-- Declared field constraints of table figure_multimedia. -/
def validFigureMultimedia (m : FigureMultimedia) : Bool :=
  strLenLe m.media_url 500 && strLenLe m.title 200 &&
    optStrLenLe m.description 500 && optStrLenLe m.source_attribution 300

/-- Declared field constraints of table hero_diary_progress:
completion_percentage is Decimal(max_digits=5, decimal_places=2). -/
def validHeroDiaryProgress (p : HeroDiaryProgress) : Bool :=
  decimalFits 5 2 p.completion_percentage && optStrLenLe p.notes 2000

/-- Declared field constraints of table ar_triggers. -/
def validARTrigger (t : ARTrigger) : Bool :=
  strLenLe t.trigger_name 100 && strLenLe t.description 500

/-- Declared field constraints of table ar_models: scale_factor is
Decimal(5, 3) and file_size_mb is Decimal(8, 2). -/
def validARModel (m : ARModel) : Bool :=
  strLenLe m.model_name 100 && strLenLe m.model_file_path 500 &&
    optStrLenLe m.texture_file_path 500 &&
    optStrLenLe m.animation_file_path 500 &&
    decimalFits 5 3 m.scale_factor && optDecimalFits 8 2 m.file_size_mb

/-- Declared field constraints of table ar_experiences. -/
def validARExperience (e : ARExperience) : Bool :=
  strLenLe e.experience_name 100 && strLenLe e.description 500 &&
    optStrLenLe e.audio_narration_url 500

/-- Declared field constraints of table ar_sessions: the source declares
no bound on any ar_sessions column (completion_status in particular is an
unconstrained string). -/
def validARSession (_ : ARSession) : Bool := true

/-- Declared field constraints of shape UserCreate. -/
def validUserCreate (c : UserCreate) : Bool :=
  strLenLe c.username 50 && strLenLe c.email 255 && strLenLe c.full_name 100

/-- Declared field constraints of shape StudentCreate. -/
def validStudentCreate (c : StudentCreate) : Bool :=
  strLenLe c.school_name 200

/-- Declared field constraints of shape TeacherCreate. -/
def validTeacherCreate (c : TeacherCreate) : Bool :=
  strLenLe c.school_name 200 && optStrLenLe c.certification_number 50 &&
    optStrLenLe c.specialization 100

/-- Declared field constraints of shape StudentAnswerCreate. -/
def validStudentAnswerCreate (c : StudentAnswerCreate) : Bool :=
  strLenLe c.student_answer 1000

/-- Declared field constraints of shape VocabularyTermCreate. -/
def validVocabularyTermCreate (c : VocabularyTermCreate) : Bool :=
  strLenLe c.term 100 && strLenLe c.definition 2000 &&
    optStrLenLe c.pronunciation 200

/-- Declared field constraints of shape HeroDiaryProgressUpdate. -/
def validHeroDiaryProgressUpdate (c : HeroDiaryProgressUpdate) : Bool :=
  optStrLenLe c.notes 2000

/-- Boolean check that every row of a table has an assigned primary key
and that no two rows share one. -/
def idsAssignedUnique {α : Type} [DecidableEq α] (idOf : α → Option Int)
    (l : List α) : Bool :=
  l.all (fun r => (idOf r).isSome) && decide ((l.map idOf).Nodup)

/-- Boolean check that a foreign-key value references the id of some row
of the referenced table. -/
def refsId {α : Type} (idOf : α → Option Int) (l : List α) (k : Int) : Bool :=
  l.any (fun r => idOf r == some k)

/-- Boolean check for an optional foreign-key column: an absent value
references nothing and is allowed. -/
def optRefsId {α : Type} (idOf : α → Option Int) (l : List α)
    (o : Option Int) : Bool :=
  o.elim true (fun k => refsId idOf l k)

/-- A database state: the contents of every table declared in
src/app/models.py. -/
structure DBState where
  users : List User
  student_profiles : List StudentProfile
  teacher_profiles : List TeacherProfile
  lesson_plans : List LessonPlan
  teaching_materials : List TeachingMaterial
  activity_sheets : List ActivitySheet
  historical_periods : List HistoricalPeriod
  quiz_levels : List QuizLevel
  quiz_questions : List QuizQuestion
  quiz_attempts : List QuizAttempt
  student_answers : List StudentAnswer
  badges : List Badge
  student_badges : List StudentBadge
  vocabulary_terms : List VocabularyTerm
  vocabulary_visuals : List VocabularyVisual
  term_connections : List TermConnection
  historical_figures : List HistoricalFigure
  diary_entries : List DiaryEntry
  timeline_events : List TimelineEvent
  figure_multimedia : List FigureMultimedia
  hero_diary_progress : List HeroDiaryProgress
  ar_triggers : List ARTrigger
  ar_models : List ARModel
  ar_experiences : List ARExperience
  ar_sessions : List ARSession

/-- Every row of every table satisfies its declared field constraints. -/
def rowsValid (s : DBState) : Bool :=
  s.users.all validUser &&
    s.student_profiles.all validStudentProfile &&
    s.teacher_profiles.all validTeacherProfile &&
    s.lesson_plans.all validLessonPlan &&
    s.teaching_materials.all validTeachingMaterial &&
    s.activity_sheets.all validActivitySheet &&
    s.historical_periods.all validHistoricalPeriod &&
    s.quiz_levels.all validQuizLevel &&
    s.quiz_questions.all validQuizQuestion &&
    s.quiz_attempts.all validQuizAttempt &&
    s.student_answers.all validStudentAnswer &&
    s.badges.all validBadge &&
    s.student_badges.all validStudentBadge &&
    s.vocabulary_terms.all validVocabularyTerm &&
    s.vocabulary_visuals.all validVocabularyVisual &&
    s.term_connections.all validTermConnection &&
    s.historical_figures.all validHistoricalFigure &&
    s.diary_entries.all validDiaryEntry &&
    s.timeline_events.all validTimelineEvent &&
    s.figure_multimedia.all validFigureMultimedia &&
    s.hero_diary_progress.all validHeroDiaryProgress &&
    s.ar_triggers.all validARTrigger &&
    s.ar_models.all validARModel &&
    s.ar_experiences.all validARExperience &&
    s.ar_sessions.all validARSession

/-- Every table has assigned, pairwise-distinct primary keys. -/
def primaryKeysOk (s : DBState) : Bool :=
  idsAssignedUnique User.id s.users &&
    idsAssignedUnique StudentProfile.id s.student_profiles &&
    idsAssignedUnique TeacherProfile.id s.teacher_profiles &&
    idsAssignedUnique LessonPlan.id s.lesson_plans &&
    idsAssignedUnique TeachingMaterial.id s.teaching_materials &&
    idsAssignedUnique ActivitySheet.id s.activity_sheets &&
    idsAssignedUnique HistoricalPeriod.id s.historical_periods &&
    idsAssignedUnique QuizLevel.id s.quiz_levels &&
    idsAssignedUnique QuizQuestion.id s.quiz_questions &&
    idsAssignedUnique QuizAttempt.id s.quiz_attempts &&
    idsAssignedUnique StudentAnswer.id s.student_answers &&
    idsAssignedUnique Badge.id s.badges &&
    idsAssignedUnique StudentBadge.id s.student_badges &&
    idsAssignedUnique VocabularyTerm.id s.vocabulary_terms &&
    idsAssignedUnique VocabularyVisual.id s.vocabulary_visuals &&
    idsAssignedUnique TermConnection.id s.term_connections &&
    idsAssignedUnique HistoricalFigure.id s.historical_figures &&
    idsAssignedUnique DiaryEntry.id s.diary_entries &&
    idsAssignedUnique TimelineEvent.id s.timeline_events &&
    idsAssignedUnique FigureMultimedia.id s.figure_multimedia &&
    idsAssignedUnique HeroDiaryProgress.id s.hero_diary_progress &&
    idsAssignedUnique ARTrigger.id s.ar_triggers &&
    idsAssignedUnique ARModel.id s.ar_models &&
    idsAssignedUnique ARExperience.id s.ar_experiences &&
    idsAssignedUnique ARSession.id s.ar_sessions

/-- The declared unique columns hold pairwise-distinct values:
users.username, users.email, historical_periods.name, badges.name,
student_profiles.user_id and teacher_profiles.user_id. -/
def uniqueColumnsOk (s : DBState) : Bool :=
  decide ((s.users.map User.username).Nodup) &&
    decide ((s.users.map User.email).Nodup) &&
    decide ((s.historical_periods.map HistoricalPeriod.name).Nodup) &&
    decide ((s.badges.map Badge.name).Nodup) &&
    decide ((s.student_profiles.map StudentProfile.user_id).Nodup) &&
    decide ((s.teacher_profiles.map TeacherProfile.user_id).Nodup)

/-- Every declared foreign-key column references an existing row of the
referenced table (optional foreign keys may be absent). -/
def foreignKeysOk (s : DBState) : Bool :=
  s.student_profiles.all (fun p => refsId User.id s.users p.user_id) &&
    s.teacher_profiles.all (fun p => refsId User.id s.users p.user_id) &&
    s.lesson_plans.all
      (fun p => refsId TeacherProfile.id s.teacher_profiles p.created_by_id) &&
    s.teaching_materials.all
      (fun m => refsId LessonPlan.id s.lesson_plans m.lesson_plan_id) &&
    s.activity_sheets.all
      (fun a => refsId LessonPlan.id s.lesson_plans a.lesson_plan_id) &&
    s.quiz_levels.all
      (fun q =>
        refsId HistoricalPeriod.id s.historical_periods
          q.historical_period_id) &&
    s.quiz_questions.all
      (fun q => refsId QuizLevel.id s.quiz_levels q.quiz_level_id) &&
    s.quiz_attempts.all
      (fun a =>
        refsId StudentProfile.id s.student_profiles a.student_id &&
          refsId QuizLevel.id s.quiz_levels a.quiz_level_id) &&
    s.student_answers.all
      (fun a =>
        refsId QuizAttempt.id s.quiz_attempts a.quiz_attempt_id &&
          refsId QuizQuestion.id s.quiz_questions a.question_id) &&
    s.student_badges.all
      (fun b =>
        refsId StudentProfile.id s.student_profiles b.student_id &&
          refsId Badge.id s.badges b.badge_id) &&
    s.vocabulary_terms.all
      (fun v =>
        optRefsId HistoricalPeriod.id s.historical_periods
          v.historical_period_id) &&
    s.vocabulary_visuals.all
      (fun v =>
        refsId VocabularyTerm.id s.vocabulary_terms v.vocabulary_term_id) &&
    s.term_connections.all
      (fun c =>
        refsId VocabularyTerm.id s.vocabulary_terms c.source_term_id &&
          refsId VocabularyTerm.id s.vocabulary_terms c.target_term_id) &&
    s.historical_figures.all
      (fun f =>
        optRefsId HistoricalPeriod.id s.historical_periods
          f.historical_period_id) &&
    s.diary_entries.all
      (fun e =>
        refsId HistoricalFigure.id s.historical_figures
          e.historical_figure_id) &&
    s.timeline_events.all
      (fun e =>
        refsId HistoricalFigure.id s.historical_figures
          e.historical_figure_id) &&
    s.figure_multimedia.all
      (fun m =>
        refsId HistoricalFigure.id s.historical_figures
          m.historical_figure_id) &&
    s.hero_diary_progress.all
      (fun p =>
        refsId StudentProfile.id s.student_profiles p.student_id &&
          refsId HistoricalFigure.id s.historical_figures
            p.historical_figure_id) &&
    s.ar_models.all
      (fun m =>
        optRefsId HistoricalFigure.id s.historical_figures
          m.historical_figure_id) &&
    s.ar_experiences.all
      (fun e =>
        refsId ARTrigger.id s.ar_triggers e.ar_trigger_id &&
          refsId ARModel.id s.ar_models e.ar_model_id) &&
    s.ar_sessions.all
      (fun x =>
        optRefsId StudentProfile.id s.student_profiles x.student_id &&
          refsId ARExperience.id s.ar_experiences x.ar_experience_id)

/-- A database state is valid when every row satisfies its declared field
constraints and every table-level constraint (assigned unique primary
keys, declared unique columns, foreign keys) holds. -/
def validDBState (s : DBState) : Bool :=
  rowsValid s && primaryKeysOk s && uniqueColumnsOk s && foreignKeysOk s

/-- Creating a QuizLevel without supplying the defaulted columns: the
declared defaults are unlock_points_required=0 and max_attempts=3. -/
def newQuizLevel (historical_period_id level_number : Int)
    (title description : String) (completion_points_reward : Int) : QuizLevel where
  id := none
  historical_period_id := historical_period_id
  level_number := level_number
  title := title
  description := description
  unlock_points_required := 0
  completion_points_reward := completion_points_reward
  max_attempts := some 3
  time_limit_minutes := none

/-- Creating an ARSession without supplying the defaulted columns: the
declared defaults are student_id=None, interactions_count=0,
completion_status="started" and device_info={}. -/
def newARSession (ar_experience_id : Int) (session_start : DateTime) : ARSession where
  id := none
  student_id := none
  ar_experience_id := ar_experience_id
  session_start := session_start
  session_end := none
  duration_seconds := none
  interactions_count := 0
  completion_status := "started"
  device_info := some []

/-- The empty database state. -/
def emptyDB : DBState where
  users := []
  student_profiles := []
  teacher_profiles := []
  lesson_plans := []
  teaching_materials := []
  activity_sheets := []
  historical_periods := []
  quiz_levels := []
  quiz_questions := []
  quiz_attempts := []
  student_answers := []
  badges := []
  student_badges := []
  vocabulary_terms := []
  vocabulary_visuals := []
  term_connections := []
  historical_figures := []
  diary_entries := []
  timeline_events := []
  figure_multimedia := []
  hero_diary_progress := []
  ar_triggers := []
  ar_models := []
  ar_experiences := []
  ar_sessions := []

/-- Example user owning both profiles at once. -/
def exDualUser : User where
  id := some 1
  username := "ana"
  email := "a@x.com"
  full_name := "Ana"
  is_teacher := false
  created_at := 0
  updated_at := 0

/-- Example student profile of exDualUser. -/
def exDualStudent : StudentProfile where
  id := some 1
  user_id := 1
  grade := .GRADE_4
  school_name := "SDN 1"
  total_points := 0
  current_level := 1
  streak_days := 0
  last_activity := none

/-- Example teacher profile of exDualUser. -/
def exDualTeacher : TeacherProfile where
  id := some 1
  user_id := 1
  school_name := "SDN 1"
  certification_number := none
  specialization := none

/-- Example state where one user holds a student and a teacher profile. -/
def exDualState : DBState :=
  { emptyDB with
    users := [exDualUser]
    student_profiles := [exDualStudent]
    teacher_profiles := [exDualTeacher] }

/-- Example vocabulary term used as both endpoints of an edge. -/
def exLoopTerm : VocabularyTerm where
  id := some 1
  historical_period_id := none
  term := "kerajaan"
  definition := "kingdom"
  pronunciation := none
  audio_url := none
  etymology := none
  usage_example := none
  difficulty_level := .EASY
  grade_level := .GRADE_4
  created_at := 0

/-- Example self-loop edge on exLoopTerm. -/
def exSelfLoop : TermConnection where
  id := some 1
  source_term_id := 1
  target_term_id := 1
  relationship_type := "related_to"
  description := none
  strength := 3

/-- Example state containing the self-loop edge. -/
def exSelfLoopState : DBState :=
  { emptyDB with
    vocabulary_terms := [exLoopTerm]
    term_connections := [exSelfLoop] }

/-- Example AR trigger. -/
def exTrigger : ARTrigger where
  id := some 1
  trigger_type := .QR_CODE
  trigger_name := "qr1"
  description := "a qr trigger"
  recognition_data := []
  is_active := true
  created_at := 0

/-- Example AR model. -/
def exModel : ARModel where
  id := some 1
  historical_figure_id := none
  model_name := "statue"
  model_file_path := "m.glb"
  texture_file_path := none
  animation_file_path := none
  scale_factor := 1
  animation_triggers := []
  interaction_points := []
  file_size_mb := none
  created_at := 0

/-- Example AR experience combining exTrigger and exModel. -/
def exExperience : ARExperience where
  id := some 1
  ar_trigger_id := 1
  ar_model_id := 1
  experience_name := "exp1"
  description := "an experience"
  interactive_elements := []
  storytelling_content := []
  audio_narration_url := none
  duration_seconds := none
  grade_level := .GRADE_4
  is_active := true

/-- Example AR session whose completion_status is none of started,
completed, abandoned. -/
def exBadStatusSession : ARSession where
  id := some 1
  student_id := none
  ar_experience_id := 1
  session_start := 0
  session_end := none
  duration_seconds := none
  interactions_count := 0
  completion_status := "bogus"
  device_info := some []

/-- Example state containing exBadStatusSession. -/
def exARState : DBState :=
  { emptyDB with
    ar_triggers := [exTrigger]
    ar_models := [exModel]
    ar_experiences := [exExperience]
    ar_sessions := [exBadStatusSession] }

/-- Example historical period. -/
def exPeriod : HistoricalPeriod where
  id := some 1
  name := "Hindu-Buddha"
  description := "a period"
  start_year := none
  end_year := none
  display_order := 0
  background_image := none

/-- Example quiz level whose max_attempts is absent (no attempt limit). -/
def exNoLimitLevel : QuizLevel where
  id := some 1
  historical_period_id := 1
  level_number := 1
  title := "level one"
  description := "first level"
  unlock_points_required := 0
  completion_points_reward := 10
  max_attempts := none
  time_limit_minutes := none

/-- Example state containing exNoLimitLevel. -/
def exNoLimitState : DBState :=
  { emptyDB with
    historical_periods := [exPeriod]
    quiz_levels := [exNoLimitLevel] }

/-- Example user A of the two-profile-rows state. -/
def exUserA : User where
  id := some 1
  username := "ua"
  email := "a@x.com"
  full_name := "A"
  is_teacher := false
  created_at := 0
  updated_at := 0

/-- Example user B of the two-profile-rows state. -/
def exUserB : User where
  id := some 2
  username := "ub"
  email := "b@x.com"
  full_name := "B"
  is_teacher := false
  created_at := 0
  updated_at := 0

/-- Example student profile referencing exUserA. -/
def exSpA : StudentProfile where
  id := some 1
  user_id := 1
  grade := .GRADE_4
  school_name := "SDN 1"
  total_points := 0
  current_level := 1
  streak_days := 0
  last_activity := none

/-- Example student profile referencing exUserB. -/
def exSpB : StudentProfile where
  id := some 2
  user_id := 2
  grade := .GRADE_5
  school_name := "SDN 2"
  total_points := 0
  current_level := 1
  streak_days := 0
  last_activity := none

/-- Example teacher profile referencing exUserA. -/
def exTpA : TeacherProfile where
  id := some 1
  user_id := 1
  school_name := "SDN 1"
  certification_number := none
  specialization := none

/-- Example teacher profile referencing exUserB. -/
def exTpB : TeacherProfile where
  id := some 2
  user_id := 2
  school_name := "SDN 2"
  certification_number := none
  specialization := none

/-- Example state with two rows in each profile table. -/
def exPairState : DBState :=
  { emptyDB with
    users := [exUserA, exUserB]
    student_profiles := [exSpA, exSpB]
    teacher_profiles := [exTpA, exTpB] }

/-- Example term connection with in-range strength. -/
def exTermConn : TermConnection where
  id := some 1
  source_term_id := 1
  target_term_id := 2
  relationship_type := "synonym"
  description := none
  strength := 3

/-- Example term connection with out-of-range strength. -/
def exBadTermConn : TermConnection where
  id := some 2
  source_term_id := 1
  target_term_id := 2
  relationship_type := "synonym"
  description := none
  strength := 7

/-- Example timeline event with in-range importance_level. -/
def exTimeline : TimelineEvent where
  id := some 1
  historical_figure_id := 1
  title := "born"
  description := "birth"
  event_date := none
  event_year := some 1817
  importance_level := 5
  location := none
  display_order := 0

/-- Example timeline event with out-of-range importance_level. -/
def exBadTimeline : TimelineEvent where
  id := some 2
  historical_figure_id := 1
  title := "born"
  description := "birth"
  event_date := none
  event_year := some 1817
  importance_level := 0
  location := none
  display_order := 0

/-- Example user row with an over-length username (60 characters). -/
def exLongNameUser : User where
  id := some 1
  username := String.mk (List.replicate 60 (Char.ofNat 97))
  email := "a@x.com"
  full_name := "A"
  is_teacher := false
  created_at := 0
  updated_at := 0

/-- Example valid user-creation shape. -/
def exUserCreate : UserCreate where
  username := "ana"
  email := "a@x.com"
  full_name := "Ana"
  is_teacher := false

/-- Example user-creation shape with an over-length username. -/
def exLongUserCreate : UserCreate where
  username := String.mk (List.replicate 60 (Char.ofNat 97))
  email := "a@x.com"
  full_name := "Ana"
  is_teacher := false

/-- Example hero-diary progress row whose completion percentage has two
decimal places (42.69). -/
def exProgress : HeroDiaryProgress where
  id := some 1
  student_id := 1
  historical_figure_id := 1
  entries_read := 3
  total_entries := 7
  completion_percentage := { num := 4269, den := 100 }
  last_accessed := 0
  favorite_entries := []
  notes := none

theorem studentGrade_mem_all (g : StudentGrade) : g ∈ StudentGrade.all := by
  cases g <;> decide

theorem questionDifficulty_mem_all (d : QuestionDifficulty) :
    d ∈ QuestionDifficulty.all := by
  cases d <;> decide

theorem questionType_mem_all (q : QuestionType) : q ∈ QuestionType.all := by
  cases q <;> decide

theorem badgeType_mem_all (b : BadgeType) : b ∈ BadgeType.all := by
  cases b <;> decide

theorem mediaType_mem_all (m : MediaType) : m ∈ MediaType.all := by
  cases m <;> decide

theorem arTriggerType_mem_all (t : ARTriggerType) : t ∈ ARTriggerType.all := by
  cases t <;> decide

theorem storeDecimal_loadDecimal (md dp : Nat) (v : ℚ)
    (h : decimalFits md dp v = true) :
    (storeDecimal md dp v).map (loadDecimal dp) = some v := by
  have hmod : 10 ^ dp % v.den = 0 := by
    simp only [decimalFits, Bool.and_eq_true, decide_eq_true_eq] at h
    exact h.1
  have hdvd : v.den ∣ 10 ^ dp := Nat.dvd_of_mod_eq_zero hmod
  have hden : (v.den : ℚ) ≠ 0 := by exact_mod_cast v.den_nz
  rw [storeDecimal, if_pos h, Option.map_some', loadDecimal]
  refine congrArg some ?_
  set k : Nat := 10 ^ dp / v.den with hkdef
  have hknat : v.den * k = 10 ^ dp := Nat.mul_div_cancel' hdvd
  have hk2 : (v.den : ℚ) * (k : ℚ) = (10 : ℚ) ^ dp := by
    calc (v.den : ℚ) * (k : ℚ)
        = ((v.den * k : Nat) : ℚ) := by push_cast; ring
      _ = ((10 ^ dp : Nat) : ℚ) := by rw [hknat]
      _ = (10 : ℚ) ^ dp := by push_cast; ring
  have hv : (v.num : ℚ) = v * (v.den : ℚ) :=
    (div_eq_iff hden).mp (Rat.num_div_den v)
  rw [div_eq_iff (by positivity : ((10 : ℚ) ^ dp) ≠ 0)]
  push_cast
  rw [hv, mul_assoc, hk2]

/-- Claim C1: validation accepts a TermConnection only when its strength
lies in the closed interval [1,5] and rejects any strength outside it, and
likewise accepts a TimelineEvent only when its importance_level lies in
[1,5] and rejects any importance_level outside it. -/
theorem C1_strength_importance_bounds (tc : TermConnection) (te : TimelineEvent) :
    (validTermConnection tc = true → 1 ≤ tc.strength ∧ tc.strength ≤ 5) ∧
    (tc.strength < 1 ∨ 5 < tc.strength → validTermConnection tc = false) ∧
    (validTimelineEvent te = true →
      1 ≤ te.importance_level ∧ te.importance_level ≤ 5) ∧
    (te.importance_level < 1 ∨ 5 < te.importance_level →
      validTimelineEvent te = false) := by
  refine ⟨?_, ?_, ?_, ?_⟩
  · intro h
    simp only [validTermConnection, Bool.and_eq_true, decide_eq_true_eq] at h
    exact ⟨h.1.2, h.2⟩
  · intro hout
    cases hb : validTermConnection tc with
    | false => rfl
    | true =>
      exfalso
      simp only [validTermConnection, Bool.and_eq_true, decide_eq_true_eq] at hb
      obtain ⟨⟨⟨-, -⟩, h1⟩, h2⟩ := hb
      rcases hout with h3 | h3 <;> omega
  · intro h
    simp only [validTimelineEvent, Bool.and_eq_true, decide_eq_true_eq] at h
    exact ⟨h.1.1.2, h.1.2⟩
  · intro hout
    cases hb : validTimelineEvent te with
    | false => rfl
    | true =>
      exfalso
      simp only [validTimelineEvent, Bool.and_eq_true, decide_eq_true_eq] at hb
      obtain ⟨⟨⟨⟨-, -⟩, h1⟩, h2⟩, -⟩ := hb
      rcases hout with h3 | h3 <;> omega

theorem C1_strength_importance_bounds_witness :
    (1 ≤ exTermConn.strength ∧ exTermConn.strength ≤ 5) ∧
    validTermConnection exBadTermConn = false ∧
    (1 ≤ exTimeline.importance_level ∧ exTimeline.importance_level ≤ 5) ∧
    validTimelineEvent exBadTimeline = false :=
  ⟨(C1_strength_importance_bounds exTermConn exTimeline).1 (by decide),
   (C1_strength_importance_bounds exBadTermConn exTimeline).2.1
      (Or.inr (by decide)),
   (C1_strength_importance_bounds exTermConn exTimeline).2.2.1 (by decide),
   (C1_strength_importance_bounds exTermConn exBadTimeline).2.2.2
      (Or.inl (by decide))⟩

/-- Claim C2: for each of the six enumerations, parsing a string accepts
exactly the enumerated literal string values and rejects every other
string; in particular StudentGrade accepts only "4", "5" and "6". -/
theorem C2_enum_values_exact :
    (∀ s : String,
      (StudentGrade.ofValue s).isSome = true ↔ s ∈ ["4", "5", "6"]) ∧
    (∀ s : String,
      (QuestionDifficulty.ofValue s).isSome = true ↔
        s ∈ ["easy", "medium", "hard"]) ∧
    (∀ s : String,
      (QuestionType.ofValue s).isSome = true ↔
        s ∈ ["multiple_choice", "true_false", "short_answer"]) ∧
    (∀ s : String,
      (BadgeType.ofValue s).isSome = true ↔
        s ∈ ["level_completion", "streak", "perfect_score", "explorer",
              "scholar"]) ∧
    (∀ s : String,
      (MediaType.ofValue s).isSome = true ↔
        s ∈ ["image", "audio", "video", "document", "model_3d"]) ∧
    (∀ s : String,
      (ARTriggerType.ofValue s).isSome = true ↔
        s ∈ ["banknote", "stamp", "textbook_image", "qr_code"]) := by
  refine ⟨fun s => ?_, fun s => ?_, fun s => ?_, fun s => ?_, fun s => ?_,
    fun s => ?_⟩
  · rw [studentGrade_ofValue_isSome]; simp
  · rw [questionDifficulty_ofValue_isSome]; simp
  · rw [questionType_ofValue_isSome]; simp
  · rw [badgeType_ofValue_isSome]; simp
  · rw [mediaType_ofValue_isSome]; simp
  · rw [arTriggerType_ofValue_isSome]; simp

/-- Claim C3: an accepted HeroDiaryProgress row's completion_percentage
fits the Decimal(5, 2) precision, and storing it and loading it back
yields a rational exactly equal to the original. -/
theorem C3_completion_percentage_roundtrip (p : HeroDiaryProgress)
    (h : validHeroDiaryProgress p = true) :
    decimalFits 5 2 p.completion_percentage = true ∧
    (storeDecimal 5 2 p.completion_percentage).map (loadDecimal 2) =
      some p.completion_percentage := by
  have hf : decimalFits 5 2 p.completion_percentage = true := by
    simp only [validHeroDiaryProgress, Bool.and_eq_true] at h
    exact h.1
  exact ⟨hf, storeDecimal_loadDecimal 5 2 p.completion_percentage hf⟩

theorem C3_completion_percentage_roundtrip_witness :
    decimalFits 5 2 exProgress.completion_percentage = true ∧
    (storeDecimal 5 2 exProgress.completion_percentage).map (loadDecimal 2) =
      some exProgress.completion_percentage :=
  C3_completion_percentage_roundtrip exProgress (by decide)

/-- Claim C4: validation accepts a User or UserCreate only when every
string field respects its declared max_length (username 50, email 255,
full_name 100) and rejects any over-length username. -/
theorem C4_max_length_bounds (u : User) (c : UserCreate) :
    (validUser u = true →
      u.username.length ≤ 50 ∧ u.email.length ≤ 255 ∧
        u.full_name.length ≤ 100) ∧
    (50 < u.username.length → validUser u = false) ∧
    (validUserCreate c = true →
      c.username.length ≤ 50 ∧ c.email.length ≤ 255 ∧
        c.full_name.length ≤ 100) ∧
    (50 < c.username.length → validUserCreate c = false) := by
  refine ⟨?_, ?_, ?_, ?_⟩
  · intro h
    simp only [validUser, strLenLe, Bool.and_eq_true, decide_eq_true_eq] at h
    exact ⟨h.1.1, h.1.2, h.2⟩
  · intro hlong
    cases hb : validUser u with
    | false => rfl
    | true =>
      exfalso
      simp only [validUser, strLenLe, Bool.and_eq_true, decide_eq_true_eq] at hb
      omega
  · intro h
    simp only [validUserCreate, strLenLe, Bool.and_eq_true,
      decide_eq_true_eq] at h
    exact ⟨h.1.1, h.1.2, h.2⟩
  · intro hlong
    cases hb : validUserCreate c with
    | false => rfl
    | true =>
      exfalso
      simp only [validUserCreate, strLenLe, Bool.and_eq_true,
        decide_eq_true_eq] at hb
      omega

theorem C4_max_length_bounds_witness :
    (exDualUser.username.length ≤ 50 ∧ exDualUser.email.length ≤ 255 ∧
      exDualUser.full_name.length ≤ 100) ∧
    validUser exLongNameUser = false ∧
    (exUserCreate.username.length ≤ 50 ∧ exUserCreate.email.length ≤ 255 ∧
      exUserCreate.full_name.length ≤ 100) ∧
    validUserCreate exLongUserCreate = false :=
  ⟨(C4_max_length_bounds exDualUser exUserCreate).1 (by decide),
   (C4_max_length_bounds exLongNameUser exUserCreate).2.1 (by decide),
   (C4_max_length_bounds exDualUser exUserCreate).2.2.1 (by decide),
   (C4_max_length_bounds exDualUser exLongUserCreate).2.2.2 (by decide)⟩

/-- Claim C5: in every valid database state the user_id column is unique
in student_profiles and in teacher_profiles: two distinct rows of either
profile table never share a user_id. -/
theorem C5_profile_user_id_unique (s : DBState) (h : validDBState s = true) :
    (∀ p ∈ s.student_profiles, ∀ q ∈ s.student_profiles,
      p ≠ q → p.user_id ≠ q.user_id) ∧
    (∀ p ∈ s.teacher_profiles, ∀ q ∈ s.teacher_profiles,
      p ≠ q → p.user_id ≠ q.user_id) := by
  have hu : uniqueColumnsOk s = true := by
    simp only [validDBState, Bool.and_eq_true] at h
    exact h.1.2
  simp only [uniqueColumnsOk, Bool.and_eq_true, decide_eq_true_eq] at hu
  obtain ⟨⟨⟨⟨⟨-, -⟩, -⟩, -⟩, hsp⟩, htp⟩ := hu
  refine ⟨?_, ?_⟩
  · intro p hp q hq hne heq
    exact hne (List.inj_on_of_nodup_map hsp hp hq heq)
  · intro p hp q hq hne heq
    exact hne (List.inj_on_of_nodup_map htp hp hq heq)

theorem C5_profile_user_id_unique_witness :
    exSpA.user_id ≠ exSpB.user_id ∧ exTpA.user_id ≠ exTpB.user_id :=
  ⟨(C5_profile_user_id_unique exPairState (by decide)).1 exSpA (by decide)
      exSpB (by decide) (by decide),
   (C5_profile_user_id_unique exPairState (by decide)).2 exTpA (by decide)
      exTpB (by decide) (by decide)⟩

/-- Claim C6: role exclusivity is not enforced: a database state in which
one User owns both a StudentProfile and a TeacherProfile satisfies every
schema constraint. -/
theorem C6_dual_profiles_permitted :
    validDBState exDualState = true ∧
    exDualStudent ∈ exDualState.student_profiles ∧
    exDualTeacher ∈ exDualState.teacher_profiles ∧
    exDualStudent.user_id = 1 ∧ exDualTeacher.user_id = 1 ∧
    exDualUser ∈ exDualState.users ∧ exDualUser.id = some 1 := by
  decide

/-- Claim C7: for each of the six enumerations the string value of every
member round-trips exactly through parsing, every member is listed, and
the listed members carry precisely the documented string values. -/
theorem C7_enum_value_roundtrip :
    (∀ g : StudentGrade, StudentGrade.ofValue g.value = some g) ∧
    (∀ g : StudentGrade, g ∈ StudentGrade.all) ∧
    StudentGrade.all.map StudentGrade.value = ["4", "5", "6"] ∧
    (∀ d : QuestionDifficulty, QuestionDifficulty.ofValue d.value = some d) ∧
    (∀ d : QuestionDifficulty, d ∈ QuestionDifficulty.all) ∧
    QuestionDifficulty.all.map QuestionDifficulty.value =
      ["easy", "medium", "hard"] ∧
    (∀ q : QuestionType, QuestionType.ofValue q.value = some q) ∧
    (∀ q : QuestionType, q ∈ QuestionType.all) ∧
    QuestionType.all.map QuestionType.value =
      ["multiple_choice", "true_false", "short_answer"] ∧
    (∀ b : BadgeType, BadgeType.ofValue b.value = some b) ∧
    (∀ b : BadgeType, b ∈ BadgeType.all) ∧
    BadgeType.all.map BadgeType.value =
      ["level_completion", "streak", "perfect_score", "explorer", "scholar"] ∧
    (∀ m : MediaType, MediaType.ofValue m.value = some m) ∧
    (∀ m : MediaType, m ∈ MediaType.all) ∧
    MediaType.all.map MediaType.value =
      ["image", "audio", "video", "document", "model_3d"] ∧
    (∀ t : ARTriggerType, ARTriggerType.ofValue t.value = some t) ∧
    (∀ t : ARTriggerType, t ∈ ARTriggerType.all) ∧
    ARTriggerType.all.map ARTriggerType.value =
      ["banknote", "stamp", "textbook_image", "qr_code"] :=
  ⟨studentGrade_ofValue_value, studentGrade_mem_all, by decide,
   questionDifficulty_ofValue_value, questionDifficulty_mem_all, by decide,
   questionType_ofValue_value, questionType_mem_all, by decide,
   badgeType_ofValue_value, badgeType_mem_all, by decide,
   mediaType_ofValue_value, mediaType_mem_all, by decide,
   arTriggerType_ofValue_value, arTriggerType_mem_all, by decide⟩

/-- Claim C8 counterexample: a database state containing an ARSession
whose completion_status is "bogus" satisfies every schema constraint, so
not every accepted ARSession has a status among started, completed,
abandoned. -/
theorem C8_status_set_counterexample :
    validDBState exARState = true ∧
    exBadStatusSession ∈ exARState.ar_sessions ∧
    exBadStatusSession.completion_status ≠ "started" ∧
    exBadStatusSession.completion_status ≠ "completed" ∧
    exBadStatusSession.completion_status ≠ "abandoned" := by
  decide

/-- Claim C8 (amended): a newly created ARSession for which no status is
supplied has completion_status "started", but the schema does not restrict
completion_status to the documented set: a session carrying any other
string still passes validation. -/
theorem C8_status_default_amended (e : Int) (t : DateTime) (st : String) :
    (newARSession e t).completion_status = "started" ∧
    validARSession { newARSession e t with completion_status := st } = true :=
  ⟨rfl, rfl⟩

/-- Claim C9: the TermConnection edge schema permits self-loops: a state
whose single connection has equal source_term_id and target_term_id, both
referencing an existing vocabulary term, satisfies every schema
constraint. -/
theorem C9_self_loop_permitted :
    validDBState exSelfLoopState = true ∧
    exSelfLoop ∈ exSelfLoopState.term_connections ∧
    exSelfLoop.source_term_id = exSelfLoop.target_term_id ∧
    exLoopTerm ∈ exSelfLoopState.vocabulary_terms ∧
    exLoopTerm.id = some exSelfLoop.source_term_id := by
  decide

/-- Claim C10: a newly created QuizLevel for which max_attempts is not
supplied has max_attempts 3, and a QuizLevel with max_attempts absent
also satisfies the schema. -/
theorem C10_max_attempts_default (hp ln cpr : Int) (t d : String) :
    (newQuizLevel hp ln t d cpr).max_attempts = some 3 ∧
    exNoLimitLevel.max_attempts = none ∧
    validDBState exNoLimitState = true ∧
    exNoLimitLevel ∈ exNoLimitState.quiz_levels :=
  ⟨rfl, rfl, by decide, by decide⟩
